import Mathlib

/-!
Shallow embedding of the BookIt booking platform core:
the `bookings` edge function (`supabase/functions/bookings/index.ts`)
and the `promo-validate` edge function, together with the data model
from the client API layer (`src/lib/api.ts` interfaces) and the SQL
schema of the repo's migration, whose table constraints
(`valid_guests`, `valid_booked`, NOT NULL and UNIQUE columns, foreign
keys) the store applies to every write the handlers attempt.

JavaScript numbers carrying money are modelled as `Rat`; guest counts and
timestamps as `Int`.  Fields that may be absent from a JSON body are
`Option`s, and JavaScript truthiness (`!x`, `x || y`) is modelled
explicitly by the `jsTruthy*` / `jsOr*` helpers.
-/

/-- JavaScript truthiness of an optional string: `undefined`, `null` and
the empty string are falsy. -/
def jsTruthyStr : Option String → Bool
  | some s => !s.isEmpty
  | none => false

/-- JavaScript truthiness of an optional integer number: `undefined` and
`0` are falsy. -/
def jsTruthyInt : Option Int → Bool
  | some n => n != 0
  | none => false

/-- JavaScript truthiness of an optional rational number: `undefined` and
`0` are falsy. -/
def jsTruthyRat : Option Rat → Bool
  | some q => q != 0
  | none => false

/-- The JavaScript expression `x || 0` on an optional number. -/
def jsOrZero : Option Rat → Rat
  | some q => if q != 0 then q else 0
  | none => 0

/-- The JavaScript expression `x || null` on an optional string. -/
def jsOrNull : Option String → Option String
  | some s => if !s.isEmpty then some s else none
  | none => none

/-- JavaScript `String.prototype.toUpperCase` on ASCII data: uppercase
every character. -/
def jsToUpperCase (s : String) : String :=
  String.mk (s.data.map Char.toUpper)

/-- JavaScript `String.prototype.charAt`: the one-character string at the
index, or the empty string when the index is out of range. -/
def jsCharAt (s : String) (i : Nat) : String :=
  match s.data.get? i with
  | some c => String.mk [c]
  | none => ""

/-! ## Data model -/

/-- An experience row (interface `Experience` in `src/lib/api.ts`). -/
structure Experience where
  id : String
  title : String
  price : Rat
  deriving Repr, DecidableEq

/-- A slot row (interface `Slot` in `src/lib/api.ts`): `capacity` and
`booked` are the fields mutated by the booking flow. -/
structure Slot where
  id : String
  experience_id : String
  date : String
  time : String
  capacity : Int
  booked : Int
  deriving Repr, DecidableEq

/-- A promo-code row (`promo_codes` table): `valid_from`/`valid_until` are
timestamps, `min_amount` and `max_discount` may be absent. -/
structure PromoCode where
  code : String
  discount_type : String
  discount_value : Rat
  min_amount : Option Rat
  max_discount : Option Rat
  valid_from : Int
  valid_until : Int
  is_active : Bool
  deriving Repr, DecidableEq

/-- The row inserted into `bookings` by the bookings handler
(`supabase/functions/bookings/index.ts`, insert object). -/
structure BookingRow where
  experience_id : String
  slot_id : String
  customer_name : String
  customer_email : String
  customer_phone : String
  num_guests : Int
  base_amount : Option Rat
  discount_amount : Rat
  final_amount : Option Rat
  promo_code : Option String
  status : String
  booking_reference : String
  deriving Repr, DecidableEq

/-- The JSON body of a `POST /bookings` request (interface
`BookingRequest` in `src/lib/api.ts`); every field may be absent. -/
structure BookingRequest where
  experienceId : Option String
  slotId : Option String
  customerName : Option String
  customerEmail : Option String
  customerPhone : Option String
  numGuests : Option Int
  baseAmount : Option Rat
  discountAmount : Option Rat
  finalAmount : Option Rat
  promoCode : Option String
  deriving Repr, DecidableEq

/-- The store visible to the edge functions: the `experiences`, `slots`,
`bookings` and `promo_codes` relations. -/
structure ServerState where
  experiences : List Experience
  slots : List Slot
  bookings : List BookingRow
  promos : List PromoCode
  deriving Repr, DecidableEq

/-- Supabase `.select().eq(key, id).single()`: succeeds exactly when the
filter matches a single row. -/
def singleRow (slots : List Slot) (id : String) : Option Slot :=
  match slots.filter (fun s => s.id == id) with
  | [s] => some s
  | _ => none

/-! ## The promo-validate handler -/

/-- Outcome of a `POST /promo-validate` request: the 400 "Code and amount
are required" response, a 200 `valid: false` response with its error
message, or a 200 `valid: true` response with discount and final amount. -/
inductive PromoResult where
  | requiredError
  | invalid (error : String)
  | valid (discount : Rat) (finalAmount : Rat)
  deriving Repr, DecidableEq

/-- The promo lookup
`.from(promo_codes).select(*).eq(code, code.toUpperCase()).eq(is_active, true).single()`. -/
def findPromo (promos : List PromoCode) (code : String) : Option PromoCode :=
  match promos.filter (fun p => p.code == jsToUpperCase code && p.is_active) with
  | [p] => some p
  | _ => none

/-- The `// Calculate discount` block of the promo-validate handler:
percentage discounts are capped at `max_discount` when that field is
truthy, fixed discounts are the raw value, any other type yields 0, and
the result is clamped by `Math.min(discountAmount, amount)`. -/
def promoDiscount (promo : PromoCode) (amount : Rat) : Rat :=
  let discountAmount : Rat :=
    if promo.discount_type == "percentage" then
      let d := amount * promo.discount_value / 100
      match promo.max_discount with
      | some md => if md != 0 && d > md then md else d
      | none => d
    else if promo.discount_type == "fixed" then
      promo.discount_value
    else 0
  min discountAmount amount

/-- The JavaScript condition `promo.min_amount && amount < promo.min_amount`:
an absent or zero `min_amount` is falsy and skips the check. -/
def jsMinCheck (minAmount : Option Rat) (amount : Rat) : Bool :=
  match minAmount with
  | some m => m != 0 && amount < m
  | none => false

/-- The `POST` branch of the promo-validate handler
(`Deno.serve` in the promo-validate edge function): guard on
`!code || !amount`, look the code up case-insensitively among active
promos, check the validity window, check the minimum amount, then
compute the discount. -/
def promoValidate (codeOpt : Option String) (amountOpt : Option Rat)
    (now : Int) (promos : List PromoCode) : PromoResult :=
  if !(jsTruthyStr codeOpt && jsTruthyRat amountOpt) then
    .requiredError
  else
    match codeOpt, amountOpt with
    | some code, some amount =>
      match findPromo promos code with
      | none => .invalid "Invalid promo code"
      | some promo =>
        if now < promo.valid_from ∨ now > promo.valid_until then
          .invalid "Promo code has expired"
        else if jsMinCheck promo.min_amount amount then
          .invalid ("Minimum purchase of $" ++ toString (promo.min_amount.getD 0)
            ++ " required")
        else
          let discountAmount := promoDiscount promo amount
          .valid discountAmount (amount - discountAmount)
    | _, _ => .requiredError

/-! ## The bookings handler -/

/-- The alphabet `ABCDEFGHIJKLMNOPQRSTUVWXYZ0123456789` used by
`generateBookingReference`. -/
def bookingRefChars : String := "ABCDEFGHIJKLMNOPQRSTUVWXYZ0123456789"

/-- The function `generateBookingReference`: start from `"BK"` and append
8 characters chosen by the random index stream `rand`; in the source
`rand i` is `Math.floor(Math.random() * chars.length)`, hence always
below 36. -/
def generateBookingReference (rand : Nat → Nat) : String :=
  (List.range 8).foldl (fun result i => result ++ jsCharAt bookingRefChars (rand i)) "BK"

/-- Outcome of a `POST /bookings` request: the 400 "Missing required
fields" response, the 404 "Slot not found" response, the 400 "Not enough
capacity available" response, the 500 response the catch block produces
when a store write is rejected and thrown, or the 200 response carrying
the inserted booking row. -/
inductive BookingOutcome where
  | invalidRequest
  | slotNotFound
  | capacityExceeded
  | serverError
  | success (row : BookingRow)
  deriving Repr, DecidableEq

/-- The `valid_booked` constraint of the `slots` table in the repo's
migration: `CHECK (booked >= 0 AND booked <= capacity)`. -/
def validBooked (booked capacity : Int) : Bool :=
  0 ≤ booked && booked ≤ capacity

/-- The store-side checks an insert into the `bookings` table must pass,
from the repo's migration: `CONSTRAINT valid_guests CHECK
(num_guests > 0)`, `CONSTRAINT valid_status CHECK (status IN ('pending',
'confirmed', 'cancelled'))`, the NOT NULL columns `base_amount` and
`final_amount`, the foreign keys `experience_id REFERENCES
experiences(id)` and `slot_id REFERENCES slots(id)`, and the UNIQUE
`booking_reference` column.  A rejected insert surfaces as
`bookingError`, which the handler throws (`if (bookingError) throw`,
line 95), and the catch block answers with the 500 response. -/
def bookingInsertOk (st : ServerState) (row : BookingRow) : Bool :=
  0 < row.num_guests
    && (row.status == "pending" || row.status == "confirmed"
        || row.status == "cancelled")
    && row.base_amount.isSome && row.final_amount.isSome
    && st.experiences.any (fun e => e.id == row.experience_id)
    && st.slots.any (fun s => s.id == row.slot_id)
    && st.bookings.all (fun b => b.booking_reference != row.booking_reference)

/-- A durable write performed by the bookings handler, in order. -/
inductive Effect where
  | insertBooking (row : BookingRow)
  | updateSlot (id : String) (booked : Int)
  deriving Repr, DecidableEq

/-- The `// Validate required fields` guard of the bookings handler:
`!experienceId || !slotId || !customerName || !customerEmail ||
!customerPhone || !numGuests`. -/
def validateBookingFields (req : BookingRequest) : Bool :=
  jsTruthyStr req.experienceId && jsTruthyStr req.slotId
    && jsTruthyStr req.customerName && jsTruthyStr req.customerEmail
    && jsTruthyStr req.customerPhone && jsTruthyInt req.numGuests

/-- The `POST` branch of the bookings handler (`Deno.serve` in
`supabase/functions/bookings/index.ts`): validate fields, fetch the slot,
test `slot.booked + numGuests > slot.capacity`, insert the booking row,
then update the slot's `booked` count.  Returns the HTTP outcome, the
updated store, and the ordered list of durable writes.

The insert is applied subject to the bookings-table constraints of the
repo's migration (`bookingInsertOk`): on rejection the store reports
`bookingError`, the handler throws (line 95) and the catch block answers
500 with no durable write.  The subsequent slot update is subject to the
`valid_booked` check, but from any store satisfying that constraint the
written value `slot.booked + numGuests` always passes it — the admission
test bounds it above and `valid_guests` (`numGuests > 0`) bounds it
below (theorem `slot_update_respects_validBooked`) — so the
`updateError` throw at line 103 never fires on a store the constraints
admit and is not a separate branch.  The final match arm is unreachable:
the truthiness guard already rules those shapes out. -/
def createBooking (rand : Nat → Nat) (req : BookingRequest) (st : ServerState) :
    BookingOutcome × ServerState × List Effect :=
  if !validateBookingFields req then
    (.invalidRequest, st, [])
  else
    match req.experienceId, req.slotId, req.customerName, req.customerEmail,
        req.customerPhone, req.numGuests with
    | some experienceId, some slotId, some customerName, some customerEmail,
        some customerPhone, some numGuests =>
      match singleRow st.slots slotId with
      | none => (.slotNotFound, st, [])
      | some slot =>
        if slot.booked + numGuests > slot.capacity then
          (.capacityExceeded, st, [])
        else
          let bookingReference := generateBookingReference rand
          let row : BookingRow :=
            { experience_id := experienceId
              slot_id := slotId
              customer_name := customerName
              customer_email := customerEmail
              customer_phone := customerPhone
              num_guests := numGuests
              base_amount := req.baseAmount
              discount_amount := jsOrZero req.discountAmount
              final_amount := req.finalAmount
              promo_code := jsOrNull req.promoCode
              status := "confirmed"
              booking_reference := bookingReference }
          if !bookingInsertOk st row then
            (.serverError, st, [])
          else
            let newBooked := slot.booked + numGuests
            (.success row,
              { st with
                slots := st.slots.map (fun s =>
                  if s.id == slotId then { s with booked := newBooked } else s)
                bookings := st.bookings ++ [row] },
              [Effect.insertBooking row, Effect.updateSlot slotId newBooked])
    | _, _, _, _, _, _ => (.invalidRequest, st, [])

/-- A sequence of booking attempts run against the store, each taking the
state the previous one left. -/
def runBookings (rand : Nat → Nat) (reqs : List BookingRequest)
    (st : ServerState) : ServerState :=
  reqs.foldl (fun s r => (createBooking rand r s).2.1) st

/-- The `booked` count of the slot with the given id, when it is unique. -/
def slotBooked (st : ServerState) (id : String) : Option Int :=
  (singleRow st.slots id).map Slot.booked

/-- The capacity invariant of §8 of the design: every slot satisfies
`0 ≤ booked ≤ capacity`. -/
def slotsInvariant (st : ServerState) : Bool :=
  st.slots.all (fun s => 0 ≤ s.booked && s.booked ≤ s.capacity)

/-- The row carried by a successful outcome, if any. -/
def successRow : BookingOutcome → Option BookingRow
  | .success row => some row
  | _ => none

/-- Whether an effect is the booking-row insert. -/
def isInsertEffect : Effect → Bool
  | .insertBooking _ => true
  | .updateSlot _ _ => false

/-! ## Concrete fixtures used by witnesses and counterexamples -/

/-- A degenerate random stream: every draw is index 0. -/
def randZero : Nat → Nat := fun _ => 0

/-- A sample experience priced at 100 per guest. -/
def expHike : Experience :=
  { id := "e1", title := "Hike", price := 100 }

/-- A sample slot of capacity 10 with the given booked count. -/
def slotA (booked : Int) : Slot :=
  { id := "s1", experience_id := "e1", date := "2026-01-01",
    time := "10:00", capacity := 10, booked := booked }

/-- A sample store holding `expHike`, one `slotA` and the given promos. -/
def mkState (booked : Int) (promos : List PromoCode) : ServerState :=
  { experiences := [expHike], slots := [slotA booked],
    bookings := [], promos := promos }

/-- A fully-populated booking request for `n` guests against `slotA`. -/
def baseReq (n : Int) : BookingRequest :=
  { experienceId := some "e1", slotId := some "s1",
    customerName := some "Ann", customerEmail := some "ann@example.com",
    customerPhone := some "555-0100", numGuests := some n,
    baseAmount := some 1, discountAmount := some 5, finalAmount := some 1,
    promoCode := some "BOGUS" }

/-- The booking row the handler inserts for `baseReq 2` against
`mkState 0` with the `randZero` stream. -/
def rowSample : BookingRow :=
  { experience_id := "e1", slot_id := "s1", customer_name := "Ann",
    customer_email := "ann@example.com", customer_phone := "555-0100",
    num_guests := 2, base_amount := some 1, discount_amount := 5,
    final_amount := some 1, promo_code := some "BOGUS",
    status := "confirmed", booking_reference := "BKAAAAAAAA" }

/-- A sample active fixed promo: 500 off, valid over timestamps 0..100,
no minimum, no cap. -/
def promoSAVE : PromoCode :=
  { code := "SAVE", discount_type := "fixed", discount_value := 500,
    min_amount := none, max_discount := none,
    valid_from := 0, valid_until := 100, is_active := true }

/-! ## Helper lemmas -/

theorem jsTruthyStr_of_ne (s : String) (h : s ≠ "") :
    jsTruthyStr (some s) = true := by
  have he : s.isEmpty = false := by
    rw [Bool.eq_false_iff]
    intro hh
    exact h ((String.isEmpty_iff s).mp hh)
  simp [jsTruthyStr, he]

theorem jsTruthyRat_of_ne (q : Rat) (h : q ≠ 0) :
    jsTruthyRat (some q) = true := by
  simp [jsTruthyRat, h]

theorem promoDiscount_le (promo : PromoCode) (amount : Rat) :
    promoDiscount promo amount ≤ amount := by
  unfold promoDiscount
  exact min_le_right _ _

/-! ## Claims about the promo-validate handler -/

/-- C10: whenever the promo-validate body has a falsy `code` (absent or
empty) or a falsy `amount` (absent or zero), the handler answers with the
400 "Code and amount are required" error for every store and every time,
so the promo lookup never happens and a zero amount never receives a
validation verdict. -/
theorem promo_requires_code_and_amount (codeOpt : Option String)
    (amountOpt : Option Rat)
    (h : codeOpt = none ∨ codeOpt = some "" ∨ amountOpt = none ∨ amountOpt = some 0) :
    ∀ (now : Int) (promos : List PromoCode),
      promoValidate codeOpt amountOpt now promos = PromoResult.requiredError := by
  intro now promos
  rcases h with h | h | h | h <;>
    simp [promoValidate, h, jsTruthyStr, jsTruthyRat,
      show "".isEmpty = true from rfl]

theorem promo_requires_code_and_amount_witness :
    ((some (0 : Rat) : Option Rat) = none ∨ (some (0 : Rat) : Option Rat) = some 0) ∧
      promoValidate (some "SAVE") (some 0) 50 [promoSAVE] = PromoResult.requiredError := by
  refine ⟨Or.inr rfl, ?_⟩
  exact promo_requires_code_and_amount (some "SAVE") (some 0)
    (Or.inr (Or.inr (Or.inr rfl))) 50 [promoSAVE]

/-- C8: when the code resolves to an active promo record but `now` lies
outside the validity window, the handler answers `valid: false` with the
expiration message, for every nonzero amount and regardless of any
minimum-amount setting: the date check short-circuits the rest. -/
theorem promo_expired_short_circuits (code : String) (amount : Rat) (now : Int)
    (promos : List PromoCode) (promo : PromoCode)
    (hc : code ≠ "") (ha : amount ≠ 0)
    (hf : findPromo promos code = some promo)
    (hd : now < promo.valid_from ∨ now > promo.valid_until) :
    promoValidate (some code) (some amount) now promos =
      PromoResult.invalid "Promo code has expired" := by
  simp only [promoValidate, jsTruthyStr_of_ne code hc, jsTruthyRat_of_ne amount ha,
    Bool.and_self, Bool.not_true, Bool.false_eq_true, if_false, hf]
  rw [if_pos hd]

theorem promo_expired_short_circuits_witness :
    findPromo [promoSAVE] "save" = some promoSAVE ∧
      ((200 : Int) < promoSAVE.valid_from ∨ (200 : Int) > promoSAVE.valid_until) ∧
      promoValidate (some "save") (some 100) 200 [promoSAVE] =
        PromoResult.invalid "Promo code has expired" := by
  refine ⟨by decide, Or.inr (by decide), ?_⟩
  exact promo_expired_short_circuits "save" 100 200 [promoSAVE] promoSAVE
    (by decide) (by norm_num) (by decide) (Or.inr (by decide))

/-- C5: every `valid: true` verdict of the promo-validate handler reports
a discount clamped to the purchase amount (`Math.min(discountAmount,
amount)`) and a final amount `amount - discount` that is never
negative. -/
theorem promo_discount_clamped (code : String) (amount : Rat) (now : Int)
    (promos : List PromoCode) (d f : Rat)
    (h : promoValidate (some code) (some amount) now promos = PromoResult.valid d f) :
    d ≤ amount ∧ f = amount - d ∧ 0 ≤ f := by
  simp only [promoValidate] at h
  split at h
  · simp at h
  · cases hf : findPromo promos code with
    | none => simp [hf] at h
    | some promo =>
      simp only [hf] at h
      split at h
      · simp at h
      · split at h
        · simp at h
        · rw [PromoResult.valid.injEq] at h
          obtain ⟨hd, hfin⟩ := h
          subst hd
          subst hfin
          refine ⟨promoDiscount_le promo amount, rfl, ?_⟩
          have := promoDiscount_le promo amount
          linarith

theorem promo_discount_clamped_witness :
    promoValidate (some "save") (some 100) 50 [promoSAVE] = PromoResult.valid 100 0 ∧
      (100 : Rat) ≤ 100 ∧ (0 : Rat) = 100 - 100 ∧ (0 : Rat) ≤ 0 := by
  have hval : promoValidate (some "save") (some 100) 50 [promoSAVE] =
      PromoResult.valid 100 0 := by
    have hfind : findPromo [promoSAVE] "save" = some promoSAVE := by decide
    have hmin : min (500 : Rat) 100 = 100 := by
      rw [min_def]
      norm_num
    simp only [promoValidate, hfind,
      show jsTruthyStr (some "save") = true from by decide,
      show jsTruthyRat (some 100) = true from by decide]
    norm_num [promoSAVE, jsMinCheck, promoDiscount, hmin]
  exact ⟨hval, promo_discount_clamped "save" 100 50 [promoSAVE] 100 0 hval⟩

/-! ## Claims about the booking reference generator -/

theorem jsCharAt_mem (s : String) (i : Nat) (h : i < s.data.length) :
    ∃ c, jsCharAt s i = String.mk [c] ∧ c ∈ s.data := by
  unfold jsCharAt
  rw [List.get?_eq_get h]
  exact ⟨s.data.get ⟨i, h⟩, rfl, List.get_mem _ _ _⟩

/-- C9: whenever every draw of the random index stream is below 36 (as
`Math.floor(Math.random() * chars.length)` always is), the generated
reference is the prefix `BK` followed by exactly 8 characters, each
drawn from the 36-symbol alphabet `A-Z0-9`. -/
theorem generateBookingReference_format (rand : Nat → Nat)
    (h : ∀ i, rand i < 36) :
    ∃ cs : List Char, (generateBookingReference rand).data = 'B' :: 'K' :: cs ∧
      cs.length = 8 ∧ ∀ c ∈ cs, c ∈ bookingRefChars.data := by
  have hlen : bookingRefChars.data.length = 36 := by decide
  obtain ⟨c0, e0, m0⟩ := jsCharAt_mem bookingRefChars (rand 0) (by rw [hlen]; exact h 0)
  obtain ⟨c1, e1, m1⟩ := jsCharAt_mem bookingRefChars (rand 1) (by rw [hlen]; exact h 1)
  obtain ⟨c2, e2, m2⟩ := jsCharAt_mem bookingRefChars (rand 2) (by rw [hlen]; exact h 2)
  obtain ⟨c3, e3, m3⟩ := jsCharAt_mem bookingRefChars (rand 3) (by rw [hlen]; exact h 3)
  obtain ⟨c4, e4, m4⟩ := jsCharAt_mem bookingRefChars (rand 4) (by rw [hlen]; exact h 4)
  obtain ⟨c5, e5, m5⟩ := jsCharAt_mem bookingRefChars (rand 5) (by rw [hlen]; exact h 5)
  obtain ⟨c6, e6, m6⟩ := jsCharAt_mem bookingRefChars (rand 6) (by rw [hlen]; exact h 6)
  obtain ⟨c7, e7, m7⟩ := jsCharAt_mem bookingRefChars (rand 7) (by rw [hlen]; exact h 7)
  refine ⟨[c0, c1, c2, c3, c4, c5, c6, c7], ?_, rfl, ?_⟩
  · show ("BK" ++ jsCharAt bookingRefChars (rand 0) ++ jsCharAt bookingRefChars (rand 1)
      ++ jsCharAt bookingRefChars (rand 2) ++ jsCharAt bookingRefChars (rand 3)
      ++ jsCharAt bookingRefChars (rand 4) ++ jsCharAt bookingRefChars (rand 5)
      ++ jsCharAt bookingRefChars (rand 6) ++ jsCharAt bookingRefChars (rand 7)).data = _
    rw [e0, e1, e2, e3, e4, e5, e6, e7]
    rfl
  · intro c hc
    simp only [List.mem_cons, List.not_mem_nil, or_false] at hc
    rcases hc with rfl | rfl | rfl | rfl | rfl | rfl | rfl | rfl <;> assumption

theorem generateBookingReference_format_witness :
    (∀ i, randZero i < 36) ∧
      ∃ cs : List Char, (generateBookingReference randZero).data = 'B' :: 'K' :: cs ∧
        cs.length = 8 ∧ ∀ c ∈ cs, c ∈ bookingRefChars.data :=
  ⟨fun i => by simp [randZero],
    generateBookingReference_format randZero (fun i => by simp [randZero])⟩

/-! ## Helper lemmas about the slot lookup and field extraction -/

theorem singleRow_filter (l : List Slot) (id : String) (slot : Slot)
    (h : singleRow l id = some slot) :
    l.filter (fun s => s.id == id) = [slot] := by
  unfold singleRow at h
  split at h
  next s heq =>
    injection h with h2
    rw [← h2]
    exact heq
  next => cases h

theorem singleRow_mem (l : List Slot) (id : String) (slot : Slot)
    (h : singleRow l id = some slot) :
    slot ∈ l ∧ slot.id = id := by
  have hf := singleRow_filter l id slot h
  have hm : slot ∈ l.filter (fun s => s.id == id) := by
    rw [hf]
    exact List.mem_singleton_self _
  rw [List.mem_filter] at hm
  exact ⟨hm.1, by simpa using hm.2⟩

theorem singleRow_unique (l : List Slot) (id : String) (slot : Slot)
    (h : singleRow l id = some slot)
    (s : Slot) (hs : s ∈ l) (hid : s.id = id) : s = slot := by
  have hf := singleRow_filter l id slot h
  have hm : s ∈ l.filter (fun s => s.id == id) := by
    rw [List.mem_filter]
    exact ⟨hs, by simp [hid]⟩
  rw [hf] at hm
  simpa using hm

theorem filter_map_id_pres (l : List Slot) (id : String) (f : Slot → Slot)
    (hid : ∀ s, (f s).id = s.id) :
    (l.map f).filter (fun s => s.id == id) =
      (l.filter (fun s => s.id == id)).map f := by
  induction l with
  | nil => rfl
  | cons a t ih =>
    by_cases ha : (a.id == id) = true
    · simp [List.filter, hid a, ha, ih]
    · simp only [List.map_cons, List.filter, hid a, ha]
      exact ih

theorem singleRow_map (l : List Slot) (id : String) (slot : Slot)
    (f : Slot → Slot) (hid : ∀ s, (f s).id = s.id)
    (h : singleRow l id = some slot) :
    singleRow (l.map f) id = some (f slot) := by
  have hf := singleRow_filter l id slot h
  unfold singleRow
  rw [filter_map_id_pres l id f hid, hf]
  rfl

theorem jsTruthyStr_some (o : Option String) (h : jsTruthyStr o = true) :
    ∃ s, o = some s := by
  cases o with
  | none => simp [jsTruthyStr] at h
  | some s => exact ⟨s, rfl⟩

theorem jsTruthyInt_some (o : Option Int) (h : jsTruthyInt o = true) :
    ∃ n, o = some n := by
  cases o with
  | none => simp [jsTruthyInt] at h
  | some n => exact ⟨n, rfl⟩

/-! ## Claims about the bookings handler -/

theorem bookingInsertOk_pos (st : ServerState) (row : BookingRow)
    (h : bookingInsertOk st row = true) : 0 < row.num_guests := by
  unfold bookingInsertOk at h
  simp only [Bool.and_eq_true, decide_eq_true_eq] at h
  exact h.1.1.1.1.1.1

theorem createBooking_preserves_invariant (rand : Nat → Nat) (req : BookingRequest)
    (st : ServerState) (hinv : slotsInvariant st = true) :
    slotsInvariant (createBooking rand req st).2.1 = true := by
  cases hv : validateBookingFields req with
  | false => simpa [createBooking, hv] using hinv
  | true =>
    have hv' := hv
    unfold validateBookingFields at hv'
    simp only [Bool.and_eq_true] at hv'
    obtain ⟨⟨⟨⟨⟨he, hs⟩, hnm⟩, hem⟩, hph⟩, hg⟩ := hv'
    obtain ⟨eid, heid⟩ := jsTruthyStr_some _ he
    obtain ⟨sid, hsid⟩ := jsTruthyStr_some _ hs
    obtain ⟨nm, hnme⟩ := jsTruthyStr_some _ hnm
    obtain ⟨em, heme⟩ := jsTruthyStr_some _ hem
    obtain ⟨ph, hphe⟩ := jsTruthyStr_some _ hph
    obtain ⟨n, hne⟩ := jsTruthyInt_some _ hg
    have hall : ∀ s ∈ st.slots, 0 ≤ s.booked ∧ s.booked ≤ s.capacity := by
      intro s hsmem
      unfold slotsInvariant at hinv
      rw [List.all_eq_true] at hinv
      simpa using hinv s hsmem
    simp only [createBooking, hv, Bool.not_true, Bool.false_eq_true, if_false,
      heid, hsid, hnme, heme, hphe, hne]
    cases hfind : singleRow st.slots sid with
    | none => simpa using hinv
    | some slot =>
      simp only [hfind]
      by_cases hcap : slot.booked + n > slot.capacity
      · simpa [hcap] using hinv
      · rw [if_neg hcap]
        split
        next => exact hinv
        next hins =>
          simp at hins
          have hn : (0 : Int) < n := by
            simpa using bookingInsertOk_pos _ _ hins
          unfold slotsInvariant
          rw [List.all_eq_true]
          intro s' hs'
          simp only [List.mem_map] at hs'
          obtain ⟨s0, hs0, rfl⟩ := hs'
          by_cases hid : (s0.id == sid) = true
          · have hs0eq : s0 = slot :=
              singleRow_unique _ _ _ hfind s0 hs0 (by simpa using hid)
            subst hs0eq
            have h1 := hall s0 hs0
            rw [if_pos hid]
            simp only [Bool.and_eq_true, decide_eq_true_eq]
            omega
          · have h1 := hall s0 hs0
            rw [if_neg hid]
            simp only [Bool.and_eq_true, decide_eq_true_eq]
            exact h1

/-- Justification for the absence of an `updateError` branch in
`createBooking`: every slot update the handler issues against a store
whose slots satisfy `valid_booked` writes a value that again passes
`valid_booked` against the updated slot's capacity — the admission test
bounds it above and the `valid_guests` check on the already-accepted
insert bounds it below — so the store never rejects the update and the
throw at line 103 is dead on stores the constraints admit. -/
theorem slot_update_respects_validBooked (rand : Nat → Nat)
    (req : BookingRequest) (st : ServerState)
    (hinv : slotsInvariant st = true) (sid : String) (b : Int)
    (hmem : Effect.updateSlot sid b ∈ (createBooking rand req st).2.2) :
    ∃ slot, singleRow st.slots sid = some slot ∧
      validBooked b slot.capacity = true := by
  cases hv : validateBookingFields req with
  | false => simp [createBooking, hv] at hmem
  | true =>
    have hv' := hv
    unfold validateBookingFields at hv'
    simp only [Bool.and_eq_true] at hv'
    obtain ⟨⟨⟨⟨⟨he, hs⟩, hnm⟩, hem⟩, hph⟩, hg⟩ := hv'
    obtain ⟨eid, heid⟩ := jsTruthyStr_some _ he
    obtain ⟨sidr, hsidr⟩ := jsTruthyStr_some _ hs
    obtain ⟨nm, hnme⟩ := jsTruthyStr_some _ hnm
    obtain ⟨em, heme⟩ := jsTruthyStr_some _ hem
    obtain ⟨ph, hphe⟩ := jsTruthyStr_some _ hph
    obtain ⟨n, hne⟩ := jsTruthyInt_some _ hg
    simp only [createBooking, hv, Bool.not_true, Bool.false_eq_true, if_false,
      heid, hsidr, hnme, heme, hphe, hne] at hmem
    cases hfind : singleRow st.slots sidr with
    | none => simp [hfind] at hmem
    | some slot =>
      simp only [hfind] at hmem
      by_cases hcap : slot.booked + n > slot.capacity
      · simp [hcap] at hmem
      · rw [if_neg hcap] at hmem
        split at hmem
        · simp at hmem
        next hins =>
          simp at hins
          have hn : (0 : Int) < n := by
            simpa using bookingInsertOk_pos _ _ hins
          simp only [List.mem_cons, List.not_mem_nil, or_false] at hmem
          rcases hmem with hmem | hmem
          · exact absurd hmem (by simp)
          · injection hmem with h1 h2
            subst h1
            subst h2
            have hb : 0 ≤ slot.booked ∧ slot.booked ≤ slot.capacity := by
              unfold slotsInvariant at hinv
              rw [List.all_eq_true] at hinv
              simpa using hinv slot (singleRow_mem _ _ _ hfind).1
            refine ⟨slot, hfind, ?_⟩
            unfold validBooked
            simp only [Bool.and_eq_true, decide_eq_true_eq]
            omega

/-- C1: from any store satisfying the capacity invariant, every sequence
of createBooking operations preserves `0 ≤ booked ≤ capacity` for every
slot.  Requests the store's constraints reject — in particular negative
guest counts, which pass the handler's truthiness validation but violate
`valid_guests` at the insert — surface as 500 responses that leave the
slots untouched, and an admitted booking writes `booked + numGuests`,
which the admission test and the positive guest count keep in bounds. -/
theorem capacity_invariant_preserved (rand : Nat → Nat)
    (reqs : List BookingRequest) (st : ServerState)
    (hinv : slotsInvariant st = true) :
    slotsInvariant (runBookings rand reqs st) = true := by
  induction reqs generalizing st with
  | nil => simpa [runBookings] using hinv
  | cons r rs ih =>
    have h1 := createBooking_preserves_invariant rand r st hinv
    simpa [runBookings] using ih _ h1

theorem capacity_invariant_preserved_witness :
    slotsInvariant (mkState 0 []) = true ∧
      slotsInvariant
        (runBookings randZero [baseReq (-5), baseReq 2] (mkState 0 [])) = true :=
  ⟨by decide,
    capacity_invariant_preserved randZero [baseReq (-5), baseReq 2] (mkState 0 [])
      (by decide)⟩

/-- C2 (amended): once field validation passes, the slot lookup succeeds
and the request satisfies the store's bookings-table constraints (a
positive guest count per `valid_guests`, the client amounts present per
the NOT NULL columns, an existing experience per the foreign key, and a
fresh booking reference per the UNIQUE column), the booking is admitted
exactly when `slot.booked + numGuests ≤ slot.capacity`: on admission the
slot's booked count becomes `booked + numGuests`, and on rejection the
outcome is the capacity error and the store is unchanged.  The
positivity condition is forced: without it the admission test alone does
not decide admission — the store rejects the insert and the handler
answers 500 (see the counterexample). -/
theorem booking_admission (rand : Nat → Nat) (req : BookingRequest) (st : ServerState)
    (sid eid : String) (n : Int) (slot : Slot)
    (hv : validateBookingFields req = true)
    (heid : req.experienceId = some eid)
    (hsid : req.slotId = some sid) (hn : req.numGuests = some n)
    (hs : singleRow st.slots sid = some slot)
    (hpos : 0 < n)
    (hba : req.baseAmount.isSome = true)
    (hfa : req.finalAmount.isSome = true)
    (hexp : (st.experiences.any (fun e => e.id == eid)) = true)
    (href : (st.bookings.all (fun b =>
        b.booking_reference != generateBookingReference rand)) = true) :
    (slot.booked + n ≤ slot.capacity →
      ∃ row, (createBooking rand req st).1 = BookingOutcome.success row ∧
        slotBooked (createBooking rand req st).2.1 sid = some (slot.booked + n)) ∧
    (slot.capacity < slot.booked + n →
      (createBooking rand req st).1 = BookingOutcome.capacityExceeded ∧
        (createBooking rand req st).2.1 = st) := by
  have hv' := hv
  unfold validateBookingFields at hv'
  simp only [Bool.and_eq_true] at hv'
  obtain ⟨⟨⟨⟨⟨he, hsB⟩, hnm⟩, hem⟩, hph⟩, hg⟩ := hv'
  obtain ⟨nm, hnme⟩ := jsTruthyStr_some _ hnm
  obtain ⟨em, heme⟩ := jsTruthyStr_some _ hem
  obtain ⟨ph, hphe⟩ := jsTruthyStr_some _ hph
  have hid' : (slot.id == sid) = true := by
    simpa using (singleRow_mem _ _ _ hs).2
  have hslotany : (st.slots.any (fun s => s.id == sid)) = true := by
    rw [List.any_eq_true]
    exact ⟨slot, (singleRow_mem _ _ _ hs).1, hid'⟩
  have hins : bookingInsertOk st
      { experience_id := eid, slot_id := sid, customer_name := nm,
        customer_email := em, customer_phone := ph, num_guests := n,
        base_amount := req.baseAmount,
        discount_amount := jsOrZero req.discountAmount,
        final_amount := req.finalAmount,
        promo_code := jsOrNull req.promoCode,
        status := "confirmed",
        booking_reference := generateBookingReference rand } = true := by
    unfold bookingInsertOk
    simp only [Bool.and_eq_true, decide_eq_true_eq]
    refine ⟨⟨⟨⟨⟨⟨hpos, by decide⟩, hba⟩, hfa⟩, hexp⟩, hslotany⟩, href⟩
  constructor
  · intro hle
    have hcap : ¬ (slot.booked + n > slot.capacity) := not_lt.mpr hle
    simp only [createBooking, hv, Bool.not_true, Bool.false_eq_true, if_false,
      heid, hsid, hnme, heme, hphe, hn, hs]
    rw [if_neg hcap]
    simp only [hins, Bool.not_true, Bool.false_eq_true, if_false]
    refine ⟨_, rfl, ?_⟩
    have hsm := singleRow_map st.slots sid slot
      (fun s => if s.id == sid then { s with booked := slot.booked + n } else s)
      (fun s => by by_cases h : (s.id == sid) = true <;> simp [h]) hs
    simp only [slotBooked, hsm]
    rw [if_pos hid']
    rfl
  · intro hgt
    simp only [createBooking, hv, Bool.not_true, Bool.false_eq_true, if_false,
      heid, hsid, hnme, heme, hphe, hn, hs]
    rw [if_pos hgt]
    exact ⟨rfl, rfl⟩

theorem booking_admission_witness :
    validateBookingFields (baseReq 1) = true ∧
      singleRow (mkState 9 []).slots "s1" = some (slotA 9) ∧
      (0 : Int) < 1 ∧
      (((slotA 9).booked + 1 ≤ (slotA 9).capacity →
        ∃ row, (createBooking randZero (baseReq 1) (mkState 9 [])).1 =
            BookingOutcome.success row ∧
          slotBooked (createBooking randZero (baseReq 1) (mkState 9 [])).2.1 "s1" =
            some ((slotA 9).booked + 1)) ∧
      ((slotA 9).capacity < (slotA 9).booked + 1 →
        (createBooking randZero (baseReq 1) (mkState 9 [])).1 =
            BookingOutcome.capacityExceeded ∧
          (createBooking randZero (baseReq 1) (mkState 9 [])).2.1 = mkState 9 [])) :=
  ⟨by decide, by decide, by decide,
    booking_admission randZero (baseReq 1) (mkState 9 []) "s1" "e1" 1 (slotA 9)
      (by decide) rfl rfl rfl (by decide) (by decide) rfl rfl (by decide) (by decide)⟩

/-- C2 (counterexample): with booked 0, capacity 10 and `numGuests = -5`
the admission test `booked + numGuests ≤ capacity` holds, yet the booking
is not admitted: the store's `valid_guests` check rejects the insert, the
handler throws at line 95, and the response is the 500 server error with
the store unchanged. -/
theorem booking_admission_counterexample :
    (slotA 0).booked + (-5) ≤ (slotA 0).capacity ∧
      (createBooking randZero (baseReq (-5)) (mkState 0 [])).1 =
        BookingOutcome.serverError ∧
      successRow (createBooking randZero (baseReq (-5)) (mkState 0 [])).1 = none ∧
      (createBooking randZero (baseReq (-5)) (mkState 0 [])).2.1 = mkState 0 [] :=
  ⟨by decide, by decide, by decide, by decide⟩

/-- C3 (amended): every persisted booking row carries exactly the
client-supplied `baseAmount`, `discountAmount || 0` and `finalAmount`;
the handler performs no server-side recomputation from the experience
price. -/
theorem persisted_amounts_from_client (rand : Nat → Nat) (req : BookingRequest)
    (st : ServerState) (row : BookingRow)
    (h : (createBooking rand req st).1 = BookingOutcome.success row) :
    row.base_amount = req.baseAmount ∧
      row.discount_amount = jsOrZero req.discountAmount ∧
      row.final_amount = req.finalAmount := by
  simp only [createBooking] at h
  split at h
  · simp at h
  · split at h
    · split at h
      · simp at h
      · split at h
        · simp at h
        · split at h
          · simp at h
          · have h2 := BookingOutcome.success.inj h
            subst h2
            exact ⟨rfl, rfl, rfl⟩
    · simp at h

theorem persisted_amounts_from_client_witness :
    (createBooking randZero (baseReq 2) (mkState 0 [])).1 =
        BookingOutcome.success rowSample ∧
      (rowSample.base_amount = (baseReq 2).baseAmount ∧
        rowSample.discount_amount = jsOrZero (baseReq 2).discountAmount ∧
        rowSample.final_amount = (baseReq 2).finalAmount) :=
  ⟨by decide,
    persisted_amounts_from_client randZero (baseReq 2) (mkState 0 []) rowSample
      (by decide)⟩

/-- C3 (counterexample): with experience price 100 and 2 guests the
server-side base would be 200, yet the handler persists the
client-supplied `baseAmount = 1`. -/
theorem recompute_amounts_counterexample :
    ((successRow (createBooking randZero (baseReq 2) (mkState 0 [])).1).map
        BookingRow.base_amount) = some (some 1) ∧
      expHike.price * 2 = 200 ∧ (1 : Rat) ≠ 200 :=
  ⟨by decide, by norm_num [expHike], by norm_num⟩

/-- C4 (amended): the bookings handler never consults the promo table —
its outcome is unchanged under any replacement of the store's
`promo_codes` relation — and a successful booking persists the submitted
promo code verbatim (`promoCode || null`) without validating it. -/
theorem booking_ignores_promo (rand : Nat → Nat) (req : BookingRequest)
    (st : ServerState) (ps : List PromoCode) :
    ((createBooking rand req { st with promos := ps }).1 =
        (createBooking rand req st).1) ∧
    (∀ row, (createBooking rand req st).1 = BookingOutcome.success row →
      row.promo_code = jsOrNull req.promoCode) := by
  obtain ⟨e, s, b, pr⟩ := st
  have hio : ∀ row, bookingInsertOk (ServerState.mk e s b ps) row =
      bookingInsertOk (ServerState.mk e s b pr) row := fun _ => rfl
  constructor
  · simp only [createBooking]
    cases hv : validateBookingFields req with
    | false => simp [hv]
    | true =>
      simp only [hv, Bool.not_true, Bool.false_eq_true, if_false, hio]
      split
      · split
        · rfl
        · split
          · rfl
          · split
            · rfl
            · rfl
      · rfl
  · intro row h
    simp only [createBooking] at h
    split at h
    · simp at h
    · split at h
      · split at h
        · simp at h
        · split at h
          · simp at h
          · split at h
            · simp at h
            · have h2 := BookingOutcome.success.inj h
              subst h2
              rfl
      · simp at h

theorem booking_ignores_promo_witness :
    (createBooking randZero (baseReq 2) (mkState 0 [])).1 =
        BookingOutcome.success rowSample ∧
      rowSample.promo_code = jsOrNull (baseReq 2).promoCode :=
  ⟨by decide,
    (booking_ignores_promo randZero (baseReq 2) (mkState 0 []) [promoSAVE]).2
      rowSample (by decide)⟩

/-- C4 (counterexample): the promo-validate handler rejects the code
`BOGUS` against the very promos stored in the state, yet the bookings
handler admits the booking and stores `BOGUS` without any InvalidPromo
failure. -/
theorem promo_revalidation_counterexample :
    promoValidate (some "BOGUS") (some 200) 50 (mkState 0 [promoSAVE]).promos =
        PromoResult.invalid "Invalid promo code" ∧
      ((successRow (createBooking randZero (baseReq 2) (mkState 0 [promoSAVE])).1).map
        BookingRow.promo_code) = some (some "BOGUS") :=
  ⟨by decide, by decide⟩

/-- C6 (amended): the bookings handler's durable writes are always either
none, or exactly the booking-row insert followed by the slot update — the
insert comes first, the capacity reservation second. -/
theorem booking_effect_order (rand : Nat → Nat) (req : BookingRequest)
    (st : ServerState) :
    (createBooking rand req st).2.2 = [] ∨
      ∃ row sid b, (createBooking rand req st).2.2 =
        [Effect.insertBooking row, Effect.updateSlot sid b] := by
  simp only [createBooking]
  split
  · left; rfl
  · split
    · split
      · left; rfl
      · split
        · left; rfl
        · split
          · left; rfl
          · right; exact ⟨_, _, _, rfl⟩
    · left; rfl

/-- C6 (counterexample): on a concrete successful booking the write trace
has the booking-row insert at position 0 and the slot update at position
1, so the insert precedes the capacity reservation. -/
theorem effect_order_counterexample :
    ((createBooking randZero (baseReq 2) (mkState 0 [])).2.2).map isInsertEffect =
        [true, false] ∧
      ((createBooking randZero (baseReq 2) (mkState 0 [])).2.2).length = 2 :=
  ⟨by decide, by decide⟩

/-- C7 (amended): a missing required field or a guest count of zero fails
the truthiness validation, and any request failing validation yields the
InvalidRequest outcome with the store unchanged and no writes; negative
guest counts, however, pass the validation (see the counterexample). -/
theorem booking_field_validation (rand : Nat → Nat) (st : ServerState)
    (req : BookingRequest) :
    ((req.numGuests = some 0 ∨ req.numGuests = none) →
      validateBookingFields req = false) ∧
    (validateBookingFields req = false →
      createBooking rand req st = (BookingOutcome.invalidRequest, st, [])) := by
  constructor
  · intro h
    rcases h with h | h <;> simp [validateBookingFields, jsTruthyInt, h]
  · intro h
    simp [createBooking, h]

theorem booking_field_validation_witness :
    ((baseReq 0).numGuests = some 0 ∨ (baseReq 0).numGuests = none) ∧
      validateBookingFields (baseReq 0) = false ∧
      createBooking randZero (baseReq 0) (mkState 0 []) =
        (BookingOutcome.invalidRequest, mkState 0 [], []) := by
  refine ⟨Or.inl rfl, ?_, ?_⟩
  · exact (booking_field_validation randZero (mkState 0 []) (baseReq 0)).1 (Or.inl rfl)
  · exact (booking_field_validation randZero (mkState 0 []) (baseReq 0)).2
      ((booking_field_validation randZero (mkState 0 []) (baseReq 0)).1 (Or.inl rfl))

/-- C7 (counterexample): a request with `numGuests = -1` and all other
fields present is not rejected as InvalidRequest — the validation lets it
through, and the attempt instead ends in the 500 server error when the
store's `valid_guests` check rejects the insert, with the store
unchanged. -/
theorem booking_field_validation_counterexample :
    (baseReq (-1)).numGuests = some (-1) ∧ ¬((0 : Int) < -1) ∧
      (createBooking randZero (baseReq (-1)) (mkState 0 [])).1 ≠
        BookingOutcome.invalidRequest ∧
      (createBooking randZero (baseReq (-1)) (mkState 0 [])).1 =
        BookingOutcome.serverError ∧
      (createBooking randZero (baseReq (-1)) (mkState 0 [])).2.1 = mkState 0 [] :=
  ⟨rfl, by decide, by decide, by decide, by decide⟩
